import Mathlib

/-!
Shallow embedding of the ClinicalCopilot backend (Python) in Lean 4.

The embedding covers the staged clinical-workflow engine
(`backend/graph.py` and the nodes under `backend/nodes/`), the collaborator
tools it calls (`backend/tools.py`), and the face-biometric
enrollment/verification engine (`backend/face_biometrics.py`).

External collaborators (the Qdrant retrieval call inside `rag_query_tool`,
the file-system side of `tool_update_emr`, and the OpenCV image-decode /
face-detect / resize primitives) are modelled as explicit parameters: the
surrounding control flow, which is the code under verification, is
translated statement by statement.
-/

namespace ClinicalCopilot

/-- Python truthiness-based `a or b` for an optional string `a` with a string
fallback `b`: `None` and `""` are falsy. -/
def pyOr (o : Option String) (d : String) : String :=
  match o with
  | some t => if t = "" then d else t
  | none => d

/-- Python truthiness of an optional string: `None` and `""` are falsy. -/
def pyFalsy (o : Option String) : Bool :=
  match o with
  | some t => t == ""
  | none => true

/-- Python `str.lower()` (ASCII case folding, as all vocabulary in the
source is ASCII). -/
def pyLower (s : String) : String :=
  ⟨s.data.map Char.toLower⟩

/-- Python `str.upper()` (ASCII case folding). -/
def pyUpper (s : String) : String :=
  ⟨s.data.map Char.toUpper⟩

/-- `isPre n h` decides whether the character list `n` is an initial
segment of `h`. -/
def isPre : List Char → List Char → Bool
  | [], _ => true
  | _ :: _, [] => false
  | a :: as, b :: bs => a == b && isPre as bs

/-- `containsL n h` decides whether `n` occurs as a contiguous run inside
`h`. -/
def containsL (n : List Char) : List Char → Bool
  | [] => n.isEmpty
  | b :: t => isPre n (b :: t) || containsL n t

/-- Python substring test `sub in s`. -/
def pyIn (sub s : String) : Bool :=
  containsL sub.data s.data

/-- The recursion behind `pyDedup`: emit each element not yet seen,
remembering the emitted ones. -/
def pyDedupGo (seen : List String) : List String → List String
  | [] => []
  | x :: xs => if x ∈ seen then pyDedupGo seen xs else x :: pyDedupGo (x :: seen) xs

/-- Python `list(dict.fromkeys(l))`: deduplicate keeping the first
occurrence of each element, preserving order. -/
def pyDedup (l : List String) : List String :=
  pyDedupGo [] l

/-- The Python accumulation loop
`for t in ls: if t not in combined: combined.append(t)` used to merge test
lists in `planner_node`. -/
def mergeUnique (ls : List String) : List String :=
  ls.foldl (fun acc t => if t ∈ acc then acc else acc ++ [t]) []

/-- One scored guideline snippet as returned by `rag_query_tool`
(`{"text": ..., "source": ..., "score": ...}`); the score is produced by
the external vector store and is never consumed arithmetically by the
core, so it is carried as an opaque rational. -/
structure GuidelineHit where
  text : String
  source : String
  score : ℚ
deriving DecidableEq, Repr

/-- The acknowledgement dict returned by `tool_update_emr` on success. -/
structure EmrResult where
  action : String
  status : String
  emr_record_id : String
deriving DecidableEq, Repr

/-- Outcome of the external file-system side of `tool_update_emr`: either
the fresh record id minted for the stored record, or the message of the
exception the persistence attempt raised. -/
inductive EmrOutcome
  | ok (emr_record_id : String)
  | err (msg : String)
deriving DecidableEq, Repr

/-- One line of the audit trail.  Each constructor corresponds to exactly
one `audit_log.append(...)` site in the source, carrying the data that the
source interpolates into the f-string at that site. -/
inductive AuditLine
  | workflowStart
  | scribeCaptured
  | plannerSummary (symptoms ruleFromSymptoms ruleFromText ragTests final : List String)
  | rxDrafted
  | safetyRedFlags
  | safetyNoFlags
  | symptomExtracted (symptoms : List String)
  | hilWaiting
  | workflowPaused
  | workflowCompleted
  | emrStored
  | emrFailed (msg : String)
  | hilApproved
  | hilRejected
  | physicianComment (comment : String)
deriving DecidableEq, Repr

/-- `AgentState` (backend/state.py): the shared state that flows through
the workflow.  Optional strings default to `None`; list fields default to
`[]`; `requires_review` defaults to `False`. -/
structure AgentState where
  patient_id : Option String := none
  raw_transcript : Option String := none
  note_summary : Option String := none
  symptoms : List String := []
  suggested_tests : List String := []
  guideline_hits : List GuidelineHit := []
  draft_prescription : Option String := none
  safety_flags : List String := []
  requires_review : Bool := false
  actions_to_execute : List EmrResult := []
  executed_actions : List EmrResult := []
  audit_log : List AuditLine := []
deriving DecidableEq, Repr

/-- The expression `state.note_summary or state.raw_transcript or ""`,
which `planner_node`, `rx_node` and `symptom_node` each evaluate to obtain
the note text. -/
def nodeNote (s : AgentState) : String :=
  pyOr s.note_summary (pyOr s.raw_transcript "")

/-- `PHRASE_TO_SYMPTOM` (backend/nodes/symptom_node.py), as an association
list in Python dict insertion order. -/
def PHRASE_TO_SYMPTOM : List (String × String) :=
  [("chest pain", "chest pain"),
   ("pain in chest", "chest pain"),
   ("heaviness in chest", "chest pain"),
   ("tightness in chest", "chest pain"),
   ("pressure in chest", "chest pain"),
   ("chest discomfort", "chest pain"),
   ("shortness of breath", "shortness of breath"),
   ("sob", "shortness of breath"),
   ("breathlessness", "shortness of breath"),
   ("breathless", "shortness of breath"),
   ("difficulty breathing", "shortness of breath"),
   ("cannot breathe", "shortness of breath"),
   ("wheezing", "shortness of breath"),
   ("fever", "fever"),
   ("high temperature", "fever"),
   ("running temperature", "fever"),
   ("felt hot", "fever"),
   ("cough", "cough"),
   ("coughing", "cough"),
   ("dry cough", "cough"),
   ("productive cough", "cough"),
   ("headache", "headache"),
   ("pain in head", "headache"),
   ("migraine", "headache"),
   ("throbbing headache", "headache"),
   ("vomiting", "vomiting"),
   ("vomit", "vomiting"),
   ("threw up", "vomiting"),
   ("throwing up", "vomiting"),
   ("nausea", "vomiting"),
   ("feel like vomiting", "vomiting"),
   ("abdominal pain", "abdominal pain"),
   ("stomach pain", "abdominal pain"),
   ("tummy pain", "abdominal pain"),
   ("gastric pain", "abdominal pain"),
   ("pain in abdomen", "abdominal pain"),
   ("loose stools", "diarrhoea"),
   ("loose motions", "diarrhoea"),
   ("diarrhea", "diarrhoea"),
   ("diarrhoea", "diarrhoea"),
   ("constipation", "constipation"),
   ("hard stools", "constipation"),
   ("difficulty passing motion", "constipation"),
   ("burning urination", "uti"),
   ("burning while passing urine", "uti"),
   ("painful urination", "uti"),
   ("frequent urination", "uti"),
   ("urine frequency", "uti"),
   ("blood in urine", "uti"),
   ("dizziness", "dizziness"),
   ("giddiness", "dizziness"),
   ("feel like spinning", "dizziness"),
   ("vertigo", "dizziness"),
   ("light headed", "dizziness"),
   ("fainted", "syncope"),
   ("lost consciousness", "syncope"),
   ("passed out", "syncope"),
   ("blackout", "syncope"),
   ("palpitations", "palpitations"),
   ("heart racing", "palpitations"),
   ("heart beating fast", "palpitations"),
   ("pounding heart", "palpitations"),
   ("leg swelling", "leg edema"),
   ("swollen legs", "leg edema"),
   ("pedal edema", "leg edema"),
   ("ankle swelling", "leg edema"),
   ("weakness of one side", "focal weakness"),
   ("weakness on one side", "focal weakness"),
   ("slurred speech", "slurred speech"),
   ("difficulty speaking", "slurred speech"),
   ("sudden vision loss", "visual loss"),
   ("diabetes", "diabetes"),
   ("type 2 diabetes", "diabetes"),
   ("type ii diabetes", "diabetes"),
   ("high blood sugar", "diabetes"),
   ("sugar is high", "diabetes"),
   ("hypertension", "hypertension"),
   ("high blood pressure", "hypertension"),
   ("bp is high", "hypertension"),
   ("pressure is high", "hypertension"),
   ("anemia", "anemia"),
   ("anaemia", "anemia"),
   ("low hemoglobin", "anemia"),
   ("hb is low", "anemia"),
   ("pregnant", "pregnancy"),
   ("missed period", "pregnancy"),
   ("positive pregnancy test", "pregnancy")]

/-- `extract_symptoms_from_text` (backend/nodes/symptom_node.py): lower the
text, collect the canonical value of every table phrase occurring as a
substring (in table order), then deduplicate keeping first occurrences. -/
def extract_symptoms_from_text (text : String) : List String :=
  let t := pyLower text
  pyDedup (PHRASE_TO_SYMPTOM.filterMap
    (fun p => if pyIn p.1 t then some p.2 else none))

/-- `symptom_node` (backend/nodes/symptom_node.py): extract symptoms from
`note_summary or raw_transcript or ""`, assign them to `state.symptoms`,
and append one audit line. -/
def symptom_node (s : AgentState) : AgentState :=
  let symptoms := extract_symptoms_from_text (nodeNote s)
  { s with symptoms := symptoms,
           audit_log := s.audit_log ++ [.symptomExtracted symptoms] }

/-- `scribe_node` (backend/nodes/scribe_node.py): fill `raw_transcript`
from `raw_transcript or note_summary or ""`, default `note_summary` to the
first 250 characters of the transcript when absent, and append one audit
line. -/
def scribe_node (s : AgentState) : AgentState :=
  let rt := pyOr s.raw_transcript (pyOr s.note_summary "")
  let ns := if pyFalsy s.note_summary ∧ rt ≠ "" then some (rt.take 250)
            else s.note_summary
  { s with raw_transcript := some rt, note_summary := ns,
           audit_log := s.audit_log ++ [.scribeCaptured] }

/-- `RED_FLAG_KEYWORDS` (backend/nodes/safety_node.py). -/
def RED_FLAG_KEYWORDS : List String :=
  ["severe chest pain",
   "shortness of breath",
   "loss of consciousness",
   "suicidal",
   "stroke"]

/-- `safety_node` (backend/nodes/safety_node.py): scan the lower-cased
concatenation of `note_summary` and `raw_transcript` for red-flag
keywords; on any match extend `safety_flags`, set `requires_review`, and
append one audit line; otherwise only append the no-flags audit line. -/
def safety_node (s : AgentState) : AgentState :=
  let text := (pyOr s.note_summary "") ++ " " ++ (pyOr s.raw_transcript "")
  let textLower := pyLower text
  let flags := RED_FLAG_KEYWORDS.filterMap
    (fun kw => if pyIn kw textLower then some ("Red flag detected: " ++ kw) else none)
  if flags ≠ [] then
    { s with safety_flags := s.safety_flags ++ flags,
             requires_review := true,
             audit_log := s.audit_log ++ [.safetyRedFlags] }
  else
    { s with audit_log := s.audit_log ++ [.safetyNoFlags] }

/-- `rx_node` (backend/nodes/rx_node.py): draft the templated prescription
text from the current symptom list and note summary, overwrite
`draft_prescription`, and append one audit line. -/
def rx_node (s : AgentState) : AgentState :=
  let summary := nodeNote s
  let symptoms := if s.symptoms ≠ [] then String.intercalate ", " s.symptoms
                  else "unspecified symptoms"
  let draft :=
    "Provisional prescription for " ++ symptoms ++ ".\n" ++
    "Note summary: " ++ summary.take 200 ++ "...\n\n" ++
    "Medications:\n" ++
    "- (To be decided by physician)\n\n" ++
    "Instructions:\n" ++
    "- Follow up if symptoms worsen.\n"
  { s with draft_prescription := some draft,
           audit_log := s.audit_log ++ [.rxDrafted] }

/-- `hil_wait_node` (backend/nodes/hil_node.py): mark the state as waiting
for human approval by appending one audit line. -/
def hil_wait_node (s : AgentState) : AgentState :=
  { s with audit_log := s.audit_log ++ [.hilWaiting] }

/-- `hil_apply_decision` (backend/nodes/hil_node.py): `approved=True`
clears `requires_review` and logs approval; `approved=False` only logs the
rejection; a non-empty comment appends one further audit line. -/
def hil_apply_decision (s : AgentState) (approved : Bool)
    (doctor_comments : Option String) : AgentState :=
  let s1 :=
    if approved then
      { s with requires_review := false,
               audit_log := s.audit_log ++ [.hilApproved] }
    else
      { s with audit_log := s.audit_log ++ [.hilRejected] }
  if pyFalsy doctor_comments then s1
  else { s1 with audit_log := s1.audit_log ++ [.physicianComment (doctor_comments.getD "")] }

/-- `STANDARD_TESTS` (backend/nodes/planner_node.py), as an association
list in Python dict insertion order. -/
def STANDARD_TESTS : List (String × List String) :=
  [("chest pain",
    ["ECG 12-lead", "Cardiac Troponin I", "CK-MB", "Lipid Profile",
     "Chest X-Ray (PA view)", "Serum Electrolytes", "Echocardiogram"]),
   ("shortness of breath",
    ["Chest X-Ray (PA view)", "Arterial Blood Gas (ABG)", "D-Dimer",
     "CBC with Differential", "HRCT Thorax", "NT-proBNP"]),
   ("fever",
    ["CBC with Differential", "C-Reactive Protein (CRP)", "ESR",
     "Dengue NS1 / IgM", "Malaria Smear / Rapid Test", "Blood Culture",
     "Urine Routine and Microscopy", "Procalcitonin"]),
   ("cough",
    ["Chest X-Ray (PA view)", "CBC with Differential", "CRP",
     "Sputum Culture and Sensitivity", "COVID-19 RT-PCR",
     "Sputum AFB (for Tuberculosis)"]),
   ("headache",
    ["MRI Brain (as indicated)", "CT Brain (Non-contrast, if emergency)",
     "CBC", "Serum Electrolytes", "ESR"]),
   ("vomiting",
    ["CBC", "Serum Electrolytes", "Random Blood Sugar", "Serum Amylase",
     "Serum Lipase", "Liver Function Test (LFT)", "Ultrasound Abdomen"]),
   ("abdominal pain",
    ["CBC", "Liver Function Test (LFT)", "Serum Amylase", "Serum Lipase",
     "Ultrasound Abdomen", "Stool Routine and Occult Blood"]),
   ("diabetes",
    ["HbA1c", "Fasting Plasma Glucose", "Postprandial Blood Sugar",
     "Lipid Profile", "Urine Microalbumin", "Renal Function Test (RFT)"]),
   ("hypertension",
    ["Serum Electrolytes", "ECG 12-lead", "Echocardiogram",
     "Renal Doppler Ultrasound", "Urine Routine and Microscopy"])]

/-- Python `key in STANDARD_TESTS` / `STANDARD_TESTS[key]` lookup. -/
def lookupStdTests (key : String) : Option (List String) :=
  (STANDARD_TESTS.find? (fun p => p.1 = key)).map (·.2)

/-- `_tests_from_symptoms` (backend/nodes/planner_node.py): for each
symptom, look up `symptom.lower()` in `STANDARD_TESTS` and extend the
list with the matches; finally deduplicate keeping first occurrences. -/
def tests_from_symptoms (symptoms : List String) : List String :=
  pyDedup (symptoms.flatMap (fun sym => (lookupStdTests (pyLower sym)).getD []))

/-- The inline `phrase_to_symptom` table inside `_tests_from_text`
(backend/nodes/planner_node.py), in Python dict insertion order. -/
def PLANNER_PHRASE_TO_SYMPTOM : List (String × String) :=
  [("chest pain", "chest pain"),
   ("pain in chest", "chest pain"),
   ("heaviness in chest", "chest pain"),
   ("tightness in chest", "chest pain"),
   ("pressure in chest", "chest pain"),
   ("shortness of breath", "shortness of breath"),
   ("breathlessness", "shortness of breath"),
   ("breathless", "shortness of breath"),
   ("difficulty breathing", "shortness of breath"),
   ("fever", "fever"),
   ("high temperature", "fever"),
   ("cough", "cough"),
   ("coughing", "cough"),
   ("headache", "headache"),
   ("pain in head", "headache"),
   ("migraine", "headache"),
   ("vomiting", "vomiting"),
   ("vomit", "vomiting"),
   ("threw up", "vomiting"),
   ("nausea", "vomiting"),
   ("abdominal pain", "abdominal pain"),
   ("stomach pain", "abdominal pain"),
   ("tummy pain", "abdominal pain"),
   ("gastric pain", "abdominal pain"),
   ("diabetes", "diabetes"),
   ("type 2 diabetes", "diabetes"),
   ("type ii diabetes", "diabetes"),
   ("high blood sugar", "diabetes"),
   ("hypertension", "hypertension"),
   ("high blood pressure", "hypertension"),
   ("bp is high", "hypertension")]

/-- The symptom-detection scan inside `_tests_from_text`: collect the
canonical value of every inline-table phrase occurring in the lower-cased
note text, deduplicated keeping first occurrences. -/
def plannerDetect (note_text : String) : List String :=
  let text := pyLower note_text
  pyDedup (PLANNER_PHRASE_TO_SYMPTOM.filterMap
    (fun p => if pyIn p.1 text then some p.2 else none))

/-- `_tests_from_text` (backend/nodes/planner_node.py): re-scan the raw
note text with the inline phrase table, then reuse `_tests_from_symptoms`
on the detected canonical symptoms. -/
def tests_from_text (note_text : String) : List String :=
  tests_from_symptoms (plannerDetect note_text)

/-- `candidate_keywords` inside `_tests_from_rag`
(backend/nodes/planner_node.py). -/
def CANDIDATE_KEYWORDS : List String :=
  ["cbc", "ecg", "x-ray", "xray", "chest x-ray", "abg", "d-dimer",
   "lipid", "urine", "hba1c", "glucose", "ct", "mri", "ultrasound",
   "spiro", "spirometry", "rft", "lft", "esr", "crp", "procalcitonin",
   "troponin"]

/-- The normalization if/elif chain inside `_tests_from_rag` mapping a
matched keyword to its display name; the final `else` branch upper-cases
the keyword. -/
def kwDisplayName (kw : String) : String :=
  if kw = "cbc" then "CBC with Differential"
  else if kw = "ecg" then "ECG 12-lead"
  else if kw = "x-ray" ∨ kw = "xray" ∨ kw = "chest x-ray" then "Chest X-Ray (PA view)"
  else if kw = "abg" then "Arterial Blood Gas (ABG)"
  else if kw = "lipid" then "Lipid Profile"
  else if kw = "urine" then "Urine Routine and Microscopy"
  else if kw = "hba1c" then "HbA1c"
  else if kw = "glucose" then "Fasting / Random Blood Glucose"
  else if kw = "ct" then "CT Scan (site as clinically indicated)"
  else if kw = "mri" then "MRI (site as clinically indicated)"
  else if kw = "ultrasound" then "Ultrasound (region as clinically indicated)"
  else if kw = "spiro" ∨ kw = "spirometry" then "Spirometry (Pulmonary Function Test)"
  else if kw = "rft" then "Renal Function Test (RFT)"
  else if kw = "lft" then "Liver Function Test (LFT)"
  else if kw = "esr" then "ESR"
  else if kw = "crp" then "C-Reactive Protein (CRP)"
  else if kw = "procalcitonin" then "Procalcitonin"
  else if kw = "troponin" then "Cardiac Troponin I"
  else pyUpper kw

/-- `_tests_from_rag` (backend/nodes/planner_node.py): nested loop over
hits and candidate keywords, appending each matched keyword display name
that is not already collected. -/
def tests_from_rag (hits : List GuidelineHit) : List String :=
  hits.foldl
    (fun extracted h =>
      let text := pyLower h.text
      CANDIDATE_KEYWORDS.foldl
        (fun ex kw =>
          if pyIn kw text then
            let name := kwDisplayName kw
            if name ∈ ex then ex else ex ++ [name]
          else ex)
        extracted)
    []

/-- `rag_query_tool` (backend/tools.py): the embedded vector search is an
external collaborator, modelled by its outcome `raw`; `some hits` is a
successful search returning `hits`, while `none` is any exception inside
the `try` block, which the tool catches, prints to the console, and turns
into the empty list. -/
def rag_query_tool (raw : Option (List GuidelineHit)) (_query : String)
    (_top_k : Nat) : List GuidelineHit :=
  match raw with
  | some hits => hits
  | none => []

/-- `tool_update_emr` (backend/tools.py): the JSON-file persistence is an
external collaborator, modelled by its outcome; on success the tool
returns the acknowledgement dict
`{"action": "update_emr", "status": "success_mock", "emr_record_id": ...}`,
and on failure it raises (modelled as `Except.error` carrying the
exception message). -/
def tool_update_emr (outcome : EmrOutcome) : Except String EmrResult :=
  match outcome with
  | .ok rid => .ok ⟨"update_emr", "success_mock", rid⟩
  | .err m => .error m

/-- `planner_node` (backend/nodes/planner_node.py): combine rule-based
tests from the current structured symptoms, rule-based tests re-scanned
from the note text, and keyword-extracted tests from the retrieval hits;
merge with first-occurrence deduplication; store the hits and the merged
list; append one audit line. -/
def planner_node (rag : Option (List GuidelineHit)) (s : AgentState) : AgentState :=
  let note := nodeNote s
  let symptoms_text := if s.symptoms ≠ [] then String.intercalate ", " s.symptoms
                       else "unspecified symptoms"
  let rule_tests_from_symptoms := tests_from_symptoms (s.symptoms.map pyLower)
  let rule_tests_from_text := tests_from_text note
  let query := "Suggest initial investigations for a patient with: " ++
    symptoms_text ++ ". Note: " ++ note
  let hits := rag_query_tool rag query 3
  let rag_tests := tests_from_rag hits
  let combined := mergeUnique (rule_tests_from_symptoms ++ rule_tests_from_text ++ rag_tests)
  { s with guideline_hits := hits,
           suggested_tests := combined,
           audit_log := s.audit_log ++
             [.plannerSummary s.symptoms rule_tests_from_symptoms
               rule_tests_from_text rag_tests combined] }

/-- The automated pipeline prefix of `run_initial_workflow`
(backend/graph.py): the five node calls in source order. -/
def pipelineCore (rag : Option (List GuidelineHit)) (s : AgentState) : AgentState :=
  symptom_node (safety_node (rx_node (planner_node rag (scribe_node s))))

/-- The state after the opening
`state.audit_log.append("Workflow: starting initial pipeline.")` of
`run_initial_workflow`, i.e. the state the five stages then run on. -/
def startState (s0 : AgentState) : AgentState :=
  { s0 with audit_log := s0.audit_log ++ [AuditLine.workflowStart] }

/-- The terminal branch of `run_initial_workflow` (backend/graph.py):
when `requires_review` holds, run `hil_wait_node` and append the pause
audit line; otherwise append the completed line. -/
def reviewBranch (s : AgentState) : AgentState :=
  if s.requires_review then
    let sw := hil_wait_node s
    { sw with audit_log := sw.audit_log ++ [AuditLine.workflowPaused] }
  else
    { s with audit_log := s.audit_log ++ [AuditLine.workflowCompleted] }

/-- The `try/except` persistence block of `run_initial_workflow`
(backend/graph.py): call `tool_update_emr`; on success append the result
to `executed_actions` and the stored audit line; when it raises, only
append the failure audit line. -/
def persistStep (emr : EmrOutcome) (s : AgentState) : AgentState :=
  match tool_update_emr emr with
  | .ok result =>
      { s with executed_actions := s.executed_actions ++ [result],
               audit_log := s.audit_log ++ [AuditLine.emrStored] }
  | .error e =>
      { s with audit_log := s.audit_log ++ [AuditLine.emrFailed e] }

/-- `run_initial_workflow` (backend/graph.py): append the start line, run
the five stages, branch on `requires_review` (pause via `hil_wait_node`
plus the pause line, or the completed line), then unconditionally attempt
the EMR persistence call, appending its acknowledgement to
`executed_actions` on success or the failure line to `audit_log` when it
raises. -/
def run_initial_workflow (rag : Option (List GuidelineHit))
    (emr : EmrOutcome) (state0 : AgentState) : AgentState :=
  persistStep emr (reviewBranch (pipelineCore rag (startState state0)))

/-- The initial state that the `/trigger-workflow` endpoint
(backend/app.py) constructs from a request:
`AgentState(patient_id=..., raw_transcript=note_text, note_summary=note_text)`,
all other fields at their defaults. -/
def triggerState (patient_id note_text : String) : AgentState :=
  { patient_id := some patient_id,
    raw_transcript := some note_text,
    note_summary := some note_text }

/-- Python `str.replace(old, new)` for one-character `old`/`new`, as used
by `_face_path` (backend/face_biometrics.py). -/
def pyReplaceChar (s : String) (old new : Char) : String :=
  ⟨s.data.map (fun c => if c = old then new else c)⟩

/-- The file name chosen by `_face_path` (backend/face_biometrics.py):
`patient_id.replace("/", "_").replace("\\", "_")` followed by `.npy`.
Two patient ids share one template slot exactly when this name
coincides. -/
def faceFileName (patient_id : String) : String :=
  pyReplaceChar (pyReplaceChar patient_id '/' '_') '\\' '_' ++ ".npy"

/-- A normalized face template: the 100x100 grayscale grid scaled to
[0, 1], flattened; pixel intensities are carried as rationals. -/
def Template : Type := List ℚ
deriving DecidableEq

/-- The per-patient template store `face_db/` as a map from file name to
stored template (`np.save` overwrites, `path.exists`/`np.load` reads). -/
def FaceDB : Type := String → Option Template

/-- `np.save(path, face_template)`: overwrite the template stored under
one file name. -/
def saveTemplate (db : FaceDB) (fileName : String) (t : Template) : FaceDB :=
  fun k => if k = fileName then some t else db k

/-- The OpenCV primitives used by `face_biometrics.py`, as an external
collaborator: image decoding (`cv2.imdecode`, `none` on undecodable
bytes), grayscale conversion plus histogram equalization, Haar-cascade
face detection returning bounding boxes `(x, y, w, h)`, and the
crop/resize/normalize step producing the 100x100 grid in [0, 1].  All are
deterministic functions of their inputs. -/
structure FaceEnv (Image Gray : Type) where
  decode : List Nat → Option Image
  toGrayEq : Image → Gray
  detect : Gray → List (Nat × Nat × Nat × Nat)
  cropResize : Gray → Nat × Nat × Nat × Nat → Template

/-- Python `max(faces, key=lambda box: box[2] * box[3])`: `none` on the
empty list (the source raises before calling `max` in that case), else
the first box of maximal area (Python `max` keeps the earliest maximum,
replacing only on a strictly greater key). -/
def pyMaxByArea : List (Nat × Nat × Nat × Nat) → Option (Nat × Nat × Nat × Nat)
  | [] => none
  | b :: bs => some (bs.foldl
      (fun best c => if c.2.2.1 * c.2.2.2 > best.2.2.1 * best.2.2.2 then c else best) b)

/-- `_extract_face_gray` (backend/face_biometrics.py): grayscale and
equalize, detect faces, fail (`ValueError`, modelled as `none`) when no
face is found, else crop/resize/normalize the largest detected face. -/
def extract_face_gray {Image Gray : Type} (env : FaceEnv Image Gray)
    (img : Image) : Option Template :=
  let gray := env.toGrayEq img
  let faces := env.detect gray
  match pyMaxByArea faces with
  | none => none
  | some box => some (env.cropResize gray box)

/-- Failure modes of `enroll_from_image_bytes`: the two `ValueError`
raises (undecodable bytes, no detected face). -/
inductive BioError
  | decodeError
  | noFace
deriving DecidableEq, Repr

/-- `enroll_from_image_bytes` (backend/face_biometrics.py): decode the
bytes, extract the normalized face template, and save it under the
patient file name, overwriting any previous template; returns the
template together with the updated store. -/
def enroll_from_image_bytes {Image Gray : Type} (env : FaceEnv Image Gray)
    (db : FaceDB) (patient_id : String) (image_bytes : List Nat) :
    Except BioError (Template × FaceDB) :=
  match env.decode image_bytes with
  | none => .error .decodeError
  | some img =>
    match extract_face_gray env img with
    | none => .error .noFace
    | some t => .ok (t, saveTemplate db (faceFileName patient_id) t)

/-- Mean squared difference `float(np.mean((stored - current) ** 2))`
between two templates of equal shape; carried exactly over rationals. -/
def mseQ (a b : Template) : ℚ :=
  ((List.zipWith (fun x y : ℚ => (x - y) * (x - y)) a b).sum) / (List.length a)

/-- The result dict of `verify_from_image_bytes`. -/
structure VerifyResult where
  status : String
  matched : Bool
  distance : Option ℚ
  threshold : ℚ
deriving DecidableEq, Repr

/-- `verify_from_image_bytes` (backend/face_biometrics.py): look up the
stored template (`no_enrollment` when the file is absent), decode the
bytes (`decode_error` on failure), extract the current face (`no_face`
when none is detected), else compute the mean squared difference and
match iff it is at most the threshold (default 0.25). -/
def verify_from_image_bytes {Image Gray : Type} (env : FaceEnv Image Gray)
    (db : FaceDB) (patient_id : String) (image_bytes : List Nat)
    (threshold : ℚ) : VerifyResult :=
  match db (faceFileName patient_id) with
  | none => ⟨"no_enrollment", false, none, threshold⟩
  | some stored =>
    match env.decode image_bytes with
    | none => ⟨"decode_error", false, none, threshold⟩
    | some img =>
      match extract_face_gray env img with
      | none => ⟨"no_face", false, none, threshold⟩
      | some current =>
        let mse := mseQ stored current
        ⟨"ok", decide (mse ≤ threshold), some mse, threshold⟩

/-! ### Helper lemmas -/

theorem mem_pyDedupGo {a : String} : ∀ {l seen : List String},
    a ∈ pyDedupGo seen l ↔ a ∉ seen ∧ a ∈ l := by
  intro l
  induction l with
  | nil => intro seen; simp [pyDedupGo]
  | cons x xs ih =>
    intro seen
    rw [pyDedupGo]
    by_cases hx : x ∈ seen
    · rw [if_pos hx, ih]
      by_cases hax : a = x
      · subst hax; simp [hx]
      · simp [hax]
    · rw [if_neg hx]
      by_cases hax : a = x
      · subst hax; simp [hx]
      · simp [ih, hax]

theorem mem_pyDedup {a : String} {l : List String} : a ∈ pyDedup l ↔ a ∈ l := by
  unfold pyDedup
  rw [mem_pyDedupGo]
  simp

theorem mergeStep_mem (acc : List String) (t a : String) :
    a ∈ (if t ∈ acc then acc else acc ++ [t]) ↔ a ∈ acc ∨ a = t := by
  split
  · constructor
    · exact fun h => Or.inl h
    · rintro (h | rfl)
      · exact h
      · assumption
  · simp

theorem mergeAux_mem : ∀ (l acc : List String) (a : String),
    a ∈ l.foldl (fun acc t => if t ∈ acc then acc else acc ++ [t]) acc ↔
      a ∈ acc ∨ a ∈ l
  | [], acc, a => by simp
  | x :: l, acc, a => by
    simp only [List.foldl_cons, List.mem_cons]
    rw [mergeAux_mem l _ a, mergeStep_mem]
    tauto

theorem mem_mergeUnique {a : String} {l : List String} :
    a ∈ mergeUnique l ↔ a ∈ l := by
  unfold mergeUnique
  rw [mergeAux_mem]
  simp

theorem mergeAux_nodup : ∀ (l acc : List String), acc.Nodup →
    (l.foldl (fun acc t => if t ∈ acc then acc else acc ++ [t]) acc).Nodup
  | [], _, h => h
  | x :: l, acc, h => by
    simp only [List.foldl_cons]
    refine mergeAux_nodup l _ ?_
    split
    · exact h
    · rename_i hx
      simp [List.nodup_append, h, hx]

theorem nodup_mergeUnique (l : List String) : (mergeUnique l).Nodup :=
  mergeAux_nodup l [] List.nodup_nil

theorem containsL_nil_needle : ∀ (h : List Char), containsL [] h = true
  | [] => rfl
  | _ :: t => by
    rw [containsL]
    simp [containsL_nil_needle t, isPre]

theorem isPre_append {n : List Char} : ∀ {h h2 : List Char},
    isPre n h = true → isPre n (h ++ h2) = true := by
  induction n with
  | nil => intro h h2 _; cases h <;> simp [isPre]
  | cons a as ih =>
    intro h h2 hp
    cases h with
    | nil => simp [isPre] at hp
    | cons b bs =>
      simp only [isPre, Bool.and_eq_true] at hp ⊢
      exact ⟨hp.1, ih hp.2⟩

theorem containsL_append_left {n : List Char} : ∀ {h1 h2 : List Char},
    containsL n h1 = true → containsL n (h1 ++ h2) = true := by
  intro h1
  induction h1 with
  | nil =>
    intro h2 hc
    rw [containsL] at hc
    simp only [List.isEmpty_iff] at hc
    subst hc
    exact containsL_nil_needle _
  | cons b bs ih =>
    intro h2 hc
    rw [containsL] at hc
    rw [List.cons_append, containsL]
    rcases Bool.or_eq_true _ _ |>.mp hc with hp | hrest
    · exact Bool.or_eq_true _ _ |>.mpr (Or.inl (by
        rw [← List.cons_append]
        exact isPre_append hp))
    · exact Bool.or_eq_true _ _ |>.mpr (Or.inr (ih hrest))

theorem containsL_append_right {n : List Char} : ∀ {h1 h2 : List Char},
    containsL n h2 = true → containsL n (h1 ++ h2) = true := by
  intro h1
  induction h1 with
  | nil => intro h2 hc; exact hc
  | cons b bs ih =>
    intro h2 hc
    rw [List.cons_append, containsL]
    exact Bool.or_eq_true _ _ |>.mpr (Or.inr (ih hc))

theorem data_append (a b : String) : (a ++ b).data = a.data ++ b.data := rfl

theorem pyIn_append_of_left {sub a : String} (b : String)
    (h : pyIn sub (pyLower a) = true) :
    pyIn sub (pyLower (a ++ b)) = true := by
  unfold pyIn pyLower at h ⊢
  simp only [data_append, List.map_append]
  exact containsL_append_left h

theorem pyIn_append_of_right {sub b : String} (a : String)
    (h : pyIn sub (pyLower b) = true) :
    pyIn sub (pyLower (a ++ b)) = true := by
  unfold pyIn pyLower at h ⊢
  simp only [data_append, List.map_append]
  exact containsL_append_right h

/-- `l` is an initial segment of `l ++ t`. -/
theorem prefixAppend {α : Type} (l t : List α) : l <+: l ++ t := ⟨t, rfl⟩

/-- `[]` is an initial segment of every list. -/
theorem nilIsPre {α : Type} (l : List α) : [] <+: l := ⟨l, rfl⟩

/-! ### Stage projection lemmas -/

theorem safety_node_fields (s : AgentState) :
    (safety_node s).patient_id = s.patient_id ∧
    (safety_node s).raw_transcript = s.raw_transcript ∧
    (safety_node s).note_summary = s.note_summary ∧
    (safety_node s).symptoms = s.symptoms ∧
    (safety_node s).suggested_tests = s.suggested_tests ∧
    (safety_node s).guideline_hits = s.guideline_hits ∧
    (safety_node s).draft_prescription = s.draft_prescription ∧
    (safety_node s).executed_actions = s.executed_actions := by
  simp only [safety_node]
  split <;> exact ⟨rfl, rfl, rfl, rfl, rfl, rfl, rfl, rfl⟩

theorem safety_node_keeps_review {s : AgentState}
    (h : s.requires_review = true) : (safety_node s).requires_review = true := by
  simp only [safety_node]
  split
  · rfl
  · exact h

theorem safety_node_audit (s : AgentState) :
    (safety_node s).audit_log = s.audit_log ++ [AuditLine.safetyRedFlags] ∨
    (safety_node s).audit_log = s.audit_log ++ [AuditLine.safetyNoFlags] := by
  simp only [safety_node]
  split
  · exact Or.inl rfl
  · exact Or.inr rfl

theorem nodeNote_safety (s : AgentState) : nodeNote (safety_node s) = nodeNote s := by
  unfold nodeNote
  rw [(safety_node_fields s).2.1, (safety_node_fields s).2.2.1]

theorem nodeNote_rx (s : AgentState) : nodeNote (rx_node s) = nodeNote s := rfl

theorem nodeNote_planner (rag : Option (List GuidelineHit)) (s : AgentState) :
    nodeNote (planner_node rag s) = nodeNote s := rfl

theorem run_symptoms (rag : Option (List GuidelineHit)) (emr : EmrOutcome)
    (s0 : AgentState) :
    (run_initial_workflow rag emr s0).symptoms =
      (pipelineCore rag (startState s0)).symptoms := by
  cases emr <;>
    simp only [run_initial_workflow, persistStep, reviewBranch, tool_update_emr] <;>
    split <;> rfl

theorem run_suggested_tests (rag : Option (List GuidelineHit)) (emr : EmrOutcome)
    (s0 : AgentState) :
    (run_initial_workflow rag emr s0).suggested_tests =
      (pipelineCore rag (startState s0)).suggested_tests := by
  cases emr <;>
    simp only [run_initial_workflow, persistStep, reviewBranch, tool_update_emr] <;>
    split <;> rfl

theorem run_guideline_hits (rag : Option (List GuidelineHit)) (emr : EmrOutcome)
    (s0 : AgentState) :
    (run_initial_workflow rag emr s0).guideline_hits =
      (pipelineCore rag (startState s0)).guideline_hits := by
  cases emr <;>
    simp only [run_initial_workflow, persistStep, reviewBranch, tool_update_emr] <;>
    split <;> rfl

theorem run_requires_review (rag : Option (List GuidelineHit)) (emr : EmrOutcome)
    (s0 : AgentState) :
    (run_initial_workflow rag emr s0).requires_review =
      (pipelineCore rag (startState s0)).requires_review := by
  cases emr <;>
    simp only [run_initial_workflow, persistStep, reviewBranch, tool_update_emr] <;>
    split <;> rfl

theorem run_executed_actions_ok (rag : Option (List GuidelineHit)) (rid : String)
    (s0 : AgentState) :
    (run_initial_workflow rag (.ok rid) s0).executed_actions =
      (pipelineCore rag (startState s0)).executed_actions ++
        [⟨"update_emr", "success_mock", rid⟩] := by
  simp only [run_initial_workflow, persistStep, reviewBranch, tool_update_emr]
  split <;> rfl

theorem run_executed_actions_err (rag : Option (List GuidelineHit)) (msg : String)
    (s0 : AgentState) :
    (run_initial_workflow rag (.err msg) s0).executed_actions =
      (pipelineCore rag (startState s0)).executed_actions := by
  simp only [run_initial_workflow, persistStep, reviewBranch, tool_update_emr]
  split <;> rfl

theorem pipelineCore_suggested_tests (rag : Option (List GuidelineHit))
    (s : AgentState) :
    (pipelineCore rag s).suggested_tests =
      (planner_node rag (scribe_node s)).suggested_tests := by
  unfold pipelineCore symptom_node rx_node
  exact (safety_node_fields _).2.2.2.2.1

theorem pipelineCore_symptoms (rag : Option (List GuidelineHit)) (s : AgentState) :
    (pipelineCore rag s).symptoms =
      extract_symptoms_from_text (nodeNote (scribe_node s)) := by
  unfold pipelineCore symptom_node
  rw [nodeNote_safety, nodeNote_rx, nodeNote_planner]

theorem pipelineCore_guideline_hits (rag : Option (List GuidelineHit))
    (s : AgentState) :
    (pipelineCore rag s).guideline_hits =
      (planner_node rag (scribe_node s)).guideline_hits := by
  unfold pipelineCore symptom_node rx_node
  exact (safety_node_fields _).2.2.2.2.2.1

theorem pipelineCore_executed_actions (rag : Option (List GuidelineHit))
    (s : AgentState) :
    (pipelineCore rag s).executed_actions = s.executed_actions := by
  unfold pipelineCore symptom_node
  exact (safety_node_fields _).2.2.2.2.2.2.2

theorem planner_node_suggested_tests (rag : Option (List GuidelineHit))
    (s : AgentState) :
    (planner_node rag s).suggested_tests =
      mergeUnique (tests_from_symptoms (s.symptoms.map pyLower) ++
        tests_from_text (nodeNote s) ++
        tests_from_rag (rag_query_tool rag
          ("Suggest initial investigations for a patient with: " ++
            (if s.symptoms ≠ [] then String.intercalate ", " s.symptoms
             else "unspecified symptoms") ++ ". Note: " ++ nodeNote s) 3)) := rfl

theorem run_audit_log (rag : Option (List GuidelineHit)) (emr : EmrOutcome)
    (s0 : AgentState) :
    (run_initial_workflow rag emr s0).audit_log =
      (if (pipelineCore rag (startState s0)).requires_review then
        (pipelineCore rag (startState s0)).audit_log ++
          [AuditLine.hilWaiting, AuditLine.workflowPaused]
      else
        (pipelineCore rag (startState s0)).audit_log ++
          [AuditLine.workflowCompleted]) ++
      (match emr with
       | .ok _ => [AuditLine.emrStored]
       | .err m => [AuditLine.emrFailed m]) := by
  cases emr <;>
    simp only [run_initial_workflow, persistStep, reviewBranch, tool_update_emr,
      hil_wait_node] <;>
    split <;> simp

theorem zipWith_sub_sq_self (l : List ℚ) :
    (List.zipWith (fun x y : ℚ => (x - y) * (x - y)) l l).sum = 0 := by
  induction l with
  | nil => simp
  | cons a l ih => simp [ih]

theorem mseQ_self (t : Template) : mseQ t t = 0 := by
  unfold mseQ
  rw [zipWith_sub_sq_self]
  simp

/-! ### Claims -/

/-- C4: `requires_review` is monotone under automated stages: with
`requires_review` already true, each automated stage (scribe, planner,
prescription, safety, symptom, HIL-wait) leaves it true; every automated
stage other than the safety stage returns `requires_review` unchanged on
every state, so the safety stage is the only automated stage that can
change it from false to true; and the explicit human review decision with
`approved=True` is what clears it. -/
theorem claim_C4 (rag : Option (List GuidelineHit)) (s : AgentState)
    (h : s.requires_review = true) :
    (scribe_node s).requires_review = true ∧
    (planner_node rag s).requires_review = true ∧
    (rx_node s).requires_review = true ∧
    (safety_node s).requires_review = true ∧
    (symptom_node s).requires_review = true ∧
    (hil_wait_node s).requires_review = true ∧
    (∀ s2 : AgentState,
      (scribe_node s2).requires_review = s2.requires_review ∧
      (planner_node rag s2).requires_review = s2.requires_review ∧
      (rx_node s2).requires_review = s2.requires_review ∧
      (symptom_node s2).requires_review = s2.requires_review ∧
      (hil_wait_node s2).requires_review = s2.requires_review) ∧
    (∀ (s2 : AgentState) (c : Option String),
      (hil_apply_decision s2 true c).requires_review = false) := by
  refine ⟨h, h, h, safety_node_keeps_review h, h, h,
    fun s2 => ⟨rfl, rfl, rfl, rfl, rfl⟩, fun s2 c => ?_⟩
  simp only [hil_apply_decision]
  split <;> rfl

/-- Witness for C4 at a concrete flagged state. -/
theorem claim_C4_witness :
    (scribe_node { requires_review := true }).requires_review = true :=
  (claim_C4 (some []) { requires_review := true } rfl).1

/-- C6: on a fresh state (`requires_review` false, `safety_flags` empty),
if the note summary or the raw transcript contains "suicidal"
(lower-cased substring match) the safety stage sets `requires_review` and
leaves `safety_flags` non-empty; if the lower-cased concatenation of
summary and transcript contains no red-flag phrase, `requires_review`
stays false and `safety_flags` stays empty. -/
theorem claim_C6 (s : AgentState) (hrr : s.requires_review = false)
    (hfl : s.safety_flags = []) :
    ((pyIn "suicidal" (pyLower (pyOr s.note_summary "")) = true ∨
      pyIn "suicidal" (pyLower (pyOr s.raw_transcript "")) = true) →
      (safety_node s).requires_review = true ∧
      (safety_node s).safety_flags ≠ []) ∧
    ((∀ kw ∈ RED_FLAG_KEYWORDS,
        pyIn kw (pyLower ((pyOr s.note_summary "") ++ " " ++
          (pyOr s.raw_transcript ""))) = false) →
      (safety_node s).requires_review = false ∧
      (safety_node s).safety_flags = []) := by
  constructor
  · intro h
    have hsui : pyIn "suicidal"
        (pyLower ((pyOr s.note_summary "") ++ " " ++
          (pyOr s.raw_transcript ""))) = true := by
      rcases h with h | h
      · exact pyIn_append_of_left _ (pyIn_append_of_left " " h)
      · exact pyIn_append_of_right _ h
    simp only [safety_node]
    split
    · rename_i hflags
      refine ⟨rfl, ?_⟩
      rw [hfl]
      simpa using hflags
    · rename_i hflags
      exact absurd (List.ne_nil_of_mem
        (List.mem_filterMap.mpr ⟨"suicidal", by decide, by rw [hsui]; rfl⟩)) hflags
  · intro hall
    have hflags : (List.filterMap (fun kw =>
        if pyIn kw (pyLower ((pyOr s.note_summary "") ++ " " ++
          (pyOr s.raw_transcript ""))) = true
        then some ("Red flag detected: " ++ kw) else none)
        RED_FLAG_KEYWORDS) = [] := by
      rw [List.filterMap_eq_nil_iff]
      intro kw hkw
      rw [hall kw hkw]
      simp
    simp only [safety_node]
    split
    · rename_i h2
      exact absurd hflags h2
    · exact ⟨hrr, hfl⟩

/-- Witness for C6 at concrete flagged and unflagged states. -/
theorem claim_C6_witness :
    ((safety_node { note_summary := some "Patient reports feeling Suicidal" }).requires_review = true ∧
     (safety_node { note_summary := some "Patient reports feeling Suicidal" }).safety_flags ≠ []) ∧
    ((safety_node { note_summary := some "mild cold" }).requires_review = false ∧
     (safety_node { note_summary := some "mild cold" }).safety_flags = []) :=
  ⟨(claim_C6 { note_summary := some "Patient reports feeling Suicidal" } rfl rfl).1
      (Or.inl (by decide)),
   (claim_C6 { note_summary := some "mild cold" } rfl rfl).2
      (by decide)⟩

/-- C7: from a state with `requires_review = true`, the human review
decision with `approved=True` yields `requires_review = false`, with
`approved=False` leaves it true, and in both cases every field other than
`requires_review` and `audit_log` is unchanged. -/
theorem claim_C7 (s : AgentState) (c : Option String)
    (h : s.requires_review = true) :
    (hil_apply_decision s true c).requires_review = false ∧
    (hil_apply_decision s false c).requires_review = true ∧
    (∀ approved : Bool,
      (hil_apply_decision s approved c).patient_id = s.patient_id ∧
      (hil_apply_decision s approved c).raw_transcript = s.raw_transcript ∧
      (hil_apply_decision s approved c).note_summary = s.note_summary ∧
      (hil_apply_decision s approved c).symptoms = s.symptoms ∧
      (hil_apply_decision s approved c).suggested_tests = s.suggested_tests ∧
      (hil_apply_decision s approved c).guideline_hits = s.guideline_hits ∧
      (hil_apply_decision s approved c).draft_prescription = s.draft_prescription ∧
      (hil_apply_decision s approved c).safety_flags = s.safety_flags ∧
      (hil_apply_decision s approved c).actions_to_execute = s.actions_to_execute ∧
      (hil_apply_decision s approved c).executed_actions = s.executed_actions) := by
  refine ⟨?_, ?_, ?_⟩
  · simp only [hil_apply_decision]
    split <;> rfl
  · simp only [hil_apply_decision]
    split <;> exact h
  · intro approved
    cases approved <;>
      (simp only [hil_apply_decision]
       split <;> exact ⟨rfl, rfl, rfl, rfl, rfl, rfl, rfl, rfl, rfl, rfl⟩)

/-- Witness for C7 at a concrete flagged state. -/
theorem claim_C7_witness :
    (hil_apply_decision { requires_review := true } true none).requires_review = false ∧
    (hil_apply_decision { requires_review := true } false none).requires_review = true :=
  ⟨(claim_C7 { requires_review := true } none rfl).1,
   (claim_C7 { requires_review := true } none rfl).2.1⟩

/-- C9: running the workflow on the note text
"Patient has chest pain and fever for 2 days" yields
`symptoms = ["chest pain", "fever"]`, and `suggested_tests` that include
"ECG 12-lead" and "CBC with Differential" and contain no duplicate
display names, whatever the retrieval and persistence collaborators
return. -/
theorem claim_C9 (rag : Option (List GuidelineHit)) (emr : EmrOutcome)
    (pid : String) :
    (run_initial_workflow rag emr
      (triggerState pid "Patient has chest pain and fever for 2 days")).symptoms =
      ["chest pain", "fever"] ∧
    "ECG 12-lead" ∈ (run_initial_workflow rag emr
      (triggerState pid "Patient has chest pain and fever for 2 days")).suggested_tests ∧
    "CBC with Differential" ∈ (run_initial_workflow rag emr
      (triggerState pid "Patient has chest pain and fever for 2 days")).suggested_tests ∧
    (run_initial_workflow rag emr
      (triggerState pid "Patient has chest pain and fever for 2 days")).suggested_tests.Nodup := by
  have hnote : nodeNote (scribe_node (startState
      (triggerState pid "Patient has chest pain and fever for 2 days"))) =
      "Patient has chest pain and fever for 2 days" := rfl
  refine ⟨?_, ?_, ?_, ?_⟩
  · rw [run_symptoms, pipelineCore_symptoms, hnote]
    decide
  · rw [run_suggested_tests, pipelineCore_suggested_tests,
      planner_node_suggested_tests, hnote]
    exact mem_mergeUnique.mpr (List.mem_append.mpr (Or.inl
      (List.mem_append.mpr (Or.inr (by decide)))))
  · rw [run_suggested_tests, pipelineCore_suggested_tests,
      planner_node_suggested_tests, hnote]
    exact mem_mergeUnique.mpr (List.mem_append.mpr (Or.inl
      (List.mem_append.mpr (Or.inr (by decide)))))
  · rw [run_suggested_tests, pipelineCore_suggested_tests,
      planner_node_suggested_tests]
    exact nodup_mergeUnique _

/-- C1 counterexample: on the note "Patient is suicidal" the run pauses at
the review gate (`requires_review = true`, the pause audit line is
appended), yet the EMR persistence result is still appended to
`executed_actions`, so persistence is not restricted to completed runs. -/
theorem claim_C1_counterexample :
    (run_initial_workflow (some []) (.ok "E1")
      (triggerState "P001" "Patient is suicidal")).requires_review = true ∧
    AuditLine.workflowPaused ∈ (run_initial_workflow (some []) (.ok "E1")
      (triggerState "P001" "Patient is suicidal")).audit_log ∧
    (run_initial_workflow (some []) (.ok "E1")
      (triggerState "P001" "Patient is suicidal")).executed_actions =
      [⟨"update_emr", "success_mock", "E1"⟩] := by
  refine ⟨by decide, by decide, by decide⟩

/-- C1 (amended): `run_initial_workflow` attempts the EMR persistence
side-effect on every run, regardless of which terminal state is reached:
on success the acknowledgement is appended to `executed_actions` (also on
runs that pause at the review gate) and the stored audit line is
appended; on persistence failure `executed_actions` is unchanged and the
failure audit line is appended; the pause audit line is appended exactly
on flagged runs and the completed line exactly on unflagged ones. -/
theorem claim_C1_amended (rag : Option (List GuidelineHit)) (s0 : AgentState)
    (rid msg : String) :
    (run_initial_workflow rag (.ok rid) s0).executed_actions =
      s0.executed_actions ++ [⟨"update_emr", "success_mock", rid⟩] ∧
    (run_initial_workflow rag (.err msg) s0).executed_actions =
      s0.executed_actions ∧
    AuditLine.emrStored ∈ (run_initial_workflow rag (.ok rid) s0).audit_log ∧
    AuditLine.emrFailed msg ∈ (run_initial_workflow rag (.err msg) s0).audit_log ∧
    ((run_initial_workflow rag (.ok rid) s0).requires_review = true →
      AuditLine.workflowPaused ∈ (run_initial_workflow rag (.ok rid) s0).audit_log) ∧
    ((run_initial_workflow rag (.ok rid) s0).requires_review = false →
      AuditLine.workflowCompleted ∈ (run_initial_workflow rag (.ok rid) s0).audit_log) := by
  refine ⟨?_, ?_, ?_, ?_, ?_, ?_⟩
  · rw [run_executed_actions_ok, pipelineCore_executed_actions]
    rfl
  · rw [run_executed_actions_err, pipelineCore_executed_actions]
    rfl
  · rw [run_audit_log]
    simp
  · rw [run_audit_log]
    simp
  · intro h
    rw [run_requires_review] at h
    rw [run_audit_log, if_pos h]
    simp
  · intro h
    rw [run_requires_review] at h
    rw [run_audit_log, if_neg (by simp [h])]
    simp

/-- Witness for C1 (amended) at a concrete paused run. -/
theorem claim_C1_amended_witness :
    AuditLine.workflowPaused ∈ (run_initial_workflow (some []) (.ok "E1")
      (triggerState "P001" "Patient is suicidal")).audit_log :=
  (claim_C1_amended (some [])
    (triggerState "P001" "Patient is suicidal") "E1" "boom").2.2.2.2.1 (by decide)

/-- C2 counterexample: on the note "felt hot" the pipeline's final
`symptoms` is `["fever"]` and the static table maps "fever" to a
non-empty test list containing "CBC with Differential", yet the final
`suggested_tests` is empty — the test recommendation stage never consumed
the extracted symptom list, because it runs before symptom extraction. -/
theorem claim_C2_counterexample :
    (run_initial_workflow (some []) (.ok "E1")
      (triggerState "P001" "felt hot")).symptoms = ["fever"] ∧
    "CBC with Differential" ∈ (lookupStdTests "fever").getD [] ∧
    (run_initial_workflow (some []) (.ok "E1")
      (triggerState "P001" "felt hot")).suggested_tests = [] := by
  refine ⟨by decide, by decide, by decide⟩

/-- C2 (amended): the test recommendation stage runs before symptom
extraction, so it consumes the `symptoms` field as of planning time (empty
in a fresh run), not the extracted list; what holds instead is that for
every canonical symptom that the planner's own inline text-scan table
detects in the note text and that has an entry in the static
symptom-to-tests table, each of that entry's tests appears in the final
`suggested_tests` of the workflow run. -/
theorem claim_C2_amended (rag : Option (List GuidelineHit)) (emr : EmrOutcome)
    (s0 : AgentState) (sym t : String) (ts : List String)
    (h1 : sym ∈ plannerDetect (nodeNote (scribe_node (startState s0))))
    (h2 : lookupStdTests (pyLower sym) = some ts)
    (h3 : t ∈ ts) :
    t ∈ (run_initial_workflow rag emr s0).suggested_tests := by
  rw [run_suggested_tests, pipelineCore_suggested_tests,
    planner_node_suggested_tests]
  refine mem_mergeUnique.mpr (List.mem_append.mpr (Or.inl
    (List.mem_append.mpr (Or.inr ?_))))
  unfold tests_from_text tests_from_symptoms
  refine mem_pyDedup.mpr (List.mem_flatMap.mpr ⟨sym, h1, ?_⟩)
  rw [h2]
  exact h3

/-- Witness for C2 (amended): on the note "chest pain", the planner table
detects "chest pain" and every chest-pain test, here "ECG 12-lead",
reaches the final suggestions. -/
theorem claim_C2_amended_witness :
    "ECG 12-lead" ∈ (run_initial_workflow (some []) (.ok "E1")
      (triggerState "P001" "chest pain")).suggested_tests :=
  claim_C2_amended (some []) (.ok "E1") (triggerState "P001" "chest pain")
    "chest pain" "ECG 12-lead"
    ["ECG 12-lead", "Cardiac Troponin I", "CK-MB", "Lipid Profile",
     "Chest X-Ray (PA view)", "Serum Electrolytes", "Echocardiogram"]
    (by decide) (by decide) (by decide)

/-- C5 counterexample: with the retrieval collaborator failing, the run on
note "fever" does reach a terminal state with `guideline_hits = []`, but
its audit log is exactly the list below — identical to the audit log of a
run whose retrieval succeeded with zero hits — and none of these lines is
an audit line noting the retrieval failure (the failure is only printed
to the console inside `rag_query_tool`). -/
theorem claim_C5_counterexample :
    (run_initial_workflow none (.ok "E1")
      (triggerState "P001" "fever")).guideline_hits = [] ∧
    (run_initial_workflow none (.ok "E1")
      (triggerState "P001" "fever")).audit_log =
      [AuditLine.workflowStart, AuditLine.scribeCaptured,
       AuditLine.plannerSummary [] []
         ["CBC with Differential", "C-Reactive Protein (CRP)", "ESR",
          "Dengue NS1 / IgM", "Malaria Smear / Rapid Test", "Blood Culture",
          "Urine Routine and Microscopy", "Procalcitonin"] []
         ["CBC with Differential", "C-Reactive Protein (CRP)", "ESR",
          "Dengue NS1 / IgM", "Malaria Smear / Rapid Test", "Blood Culture",
          "Urine Routine and Microscopy", "Procalcitonin"],
       AuditLine.rxDrafted, AuditLine.safetyNoFlags,
       AuditLine.symptomExtracted ["fever"], AuditLine.workflowCompleted,
       AuditLine.emrStored] ∧
    (run_initial_workflow none (.ok "E1")
      (triggerState "P001" "fever")).audit_log =
      (run_initial_workflow (some []) (.ok "E1")
        (triggerState "P001" "fever")).audit_log := by
  refine ⟨by decide, by decide, rfl⟩

/-- C5 (amended): when the retrieval collaborator raises, the workflow
still reaches AwaitingReview or Completed with `guideline_hits = []` and
the failure is never propagated to the caller; but no audit line noting
the retrieval failure is appended — the run is indistinguishable in state
from one whose retrieval succeeded with zero hits, the failure being only
printed to the console. -/
theorem claim_C5_amended (emr : EmrOutcome) (s0 : AgentState) :
    (run_initial_workflow none emr s0).guideline_hits = [] ∧
    run_initial_workflow none emr s0 = run_initial_workflow (some []) emr s0 ∧
    (AuditLine.workflowPaused ∈ (run_initial_workflow none emr s0).audit_log ∨
     AuditLine.workflowCompleted ∈ (run_initial_workflow none emr s0).audit_log) := by
  refine ⟨?_, rfl, ?_⟩
  · rw [run_guideline_hits, pipelineCore_guideline_hits]
    rfl
  · by_cases hb : (pipelineCore none (startState s0)).requires_review = true
    · left
      rw [run_audit_log, if_pos hb]
      simp
    · right
      rw [run_audit_log, if_neg hb]
      simp

/-- Monotone growth between two states: for each of the five list fields
named by the data-model invariant, the earlier list is a prefix of the
later one. -/
def growsTo (a b : AgentState) : Prop :=
  a.symptoms <+: b.symptoms ∧
  a.suggested_tests <+: b.suggested_tests ∧
  a.safety_flags <+: b.safety_flags ∧
  a.executed_actions <+: b.executed_actions ∧
  a.audit_log <+: b.audit_log

/-- The sequence of states a run of `run_initial_workflow` passes through:
initial state, after the start audit line, after each of the five stages,
after the review branch, and after the persistence attempt. -/
def stageChain (rag : Option (List GuidelineHit)) (emr : EmrOutcome)
    (s0 : AgentState) : List AgentState :=
  [s0,
   startState s0,
   scribe_node (startState s0),
   planner_node rag (scribe_node (startState s0)),
   rx_node (planner_node rag (scribe_node (startState s0))),
   safety_node (rx_node (planner_node rag (scribe_node (startState s0)))),
   pipelineCore rag (startState s0),
   reviewBranch (pipelineCore rag (startState s0)),
   persistStep emr (reviewBranch (pipelineCore rag (startState s0)))]

theorem stageChain_last (rag : Option (List GuidelineHit)) (emr : EmrOutcome)
    (s0 : AgentState) :
    (stageChain rag emr s0).getLast? = some (run_initial_workflow rag emr s0) :=
  rfl

theorem growsTo_startState (s : AgentState) : growsTo s (startState s) :=
  ⟨List.prefix_refl _, List.prefix_refl _, List.prefix_refl _,
   List.prefix_refl _, prefixAppend _ _⟩

theorem growsTo_scribe (s : AgentState) : growsTo s (scribe_node s) :=
  ⟨List.prefix_refl _, List.prefix_refl _, List.prefix_refl _,
   List.prefix_refl _, prefixAppend _ _⟩

theorem growsTo_planner (rag : Option (List GuidelineHit)) (s : AgentState)
    (h : s.suggested_tests = []) : growsTo s (planner_node rag s) := by
  refine ⟨List.prefix_refl _, ?_, List.prefix_refl _,
    List.prefix_refl _, prefixAppend _ _⟩
  rw [h]
  exact nilIsPre _

theorem growsTo_rx (s : AgentState) : growsTo s (rx_node s) :=
  ⟨List.prefix_refl _, List.prefix_refl _, List.prefix_refl _,
   List.prefix_refl _, prefixAppend _ _⟩

theorem growsTo_safety (s : AgentState) : growsTo s (safety_node s) := by
  refine ⟨?_, ?_, ?_, ?_, ?_⟩
  · rw [(safety_node_fields s).2.2.2.1]
  · rw [(safety_node_fields s).2.2.2.2.1]
  · simp only [safety_node]
    split
    · exact prefixAppend _ _
    · exact List.prefix_refl _
  · rw [(safety_node_fields s).2.2.2.2.2.2.2]
  · rcases safety_node_audit s with he | he <;> (rw [he]; exact prefixAppend _ _)

theorem growsTo_symptom (s : AgentState) (h : s.symptoms = []) :
    growsTo s (symptom_node s) := by
  refine ⟨?_, List.prefix_refl _, List.prefix_refl _,
    List.prefix_refl _, prefixAppend _ _⟩
  rw [h]
  exact nilIsPre _

theorem growsTo_reviewBranch (s : AgentState) : growsTo s (reviewBranch s) := by
  simp only [reviewBranch, hil_wait_node]
  split
  · exact ⟨List.prefix_refl _, List.prefix_refl _, List.prefix_refl _,
      List.prefix_refl _,
      List.IsPrefix.trans (prefixAppend _ _) (prefixAppend _ _)⟩
  · exact ⟨List.prefix_refl _, List.prefix_refl _, List.prefix_refl _,
      List.prefix_refl _, prefixAppend _ _⟩

theorem growsTo_persistStep (emr : EmrOutcome) (s : AgentState) :
    growsTo s (persistStep emr s) := by
  cases emr
  · simp only [persistStep, tool_update_emr]
    exact ⟨List.prefix_refl _, List.prefix_refl _, List.prefix_refl _,
      prefixAppend _ _, prefixAppend _ _⟩
  · simp only [persistStep, tool_update_emr]
    exact ⟨List.prefix_refl _, List.prefix_refl _, List.prefix_refl _,
      List.prefix_refl _, prefixAppend _ _⟩

/-- C3 counterexample: starting from an initial encounter state that
already carries `symptoms = ["x"]` and an empty note, the symptom stage
assigns a freshly extracted (empty) list, erasing the entry that was
present when the stage started, so the before-list is not a prefix of the
after-list. -/
theorem claim_C3_counterexample :
    (safety_node (rx_node (planner_node (some [])
      (scribe_node (startState { symptoms := ["x"] }))))).symptoms = ["x"] ∧
    (symptom_node (safety_node (rx_node (planner_node (some [])
      (scribe_node (startState { symptoms := ["x"] })))))).symptoms = [] ∧
    ¬ ((safety_node (rx_node (planner_node (some [])
        (scribe_node (startState { symptoms := ["x"] }))))).symptoms <+:
       (symptom_node (safety_node (rx_node (planner_node (some [])
         (scribe_node (startState { symptoms := ["x"] })))))).symptoms) := by
  refine ⟨by decide, by decide, by decide⟩

/-- C3 (amended): the five list fields grow monotonically across every
stage of a run that starts from a fresh encounter state — one whose
`symptoms` and `suggested_tests` are empty, as the API endpoints construct
them; the planner and symptom stages assign rather than append, so the
prefix property holds for them only because their target fields are still
empty when they run. -/
theorem claim_C3_amended (rag : Option (List GuidelineHit)) (emr : EmrOutcome)
    (s0 : AgentState) (h1 : s0.symptoms = []) (h2 : s0.suggested_tests = []) :
    List.Chain' growsTo (stageChain rag emr s0) ∧
    (stageChain rag emr s0).getLast? = some (run_initial_workflow rag emr s0) := by
  refine ⟨?_, stageChain_last rag emr s0⟩
  have e2 : (scribe_node (startState s0)).suggested_tests = [] := h2
  have e5 : (safety_node (rx_node (planner_node rag
      (scribe_node (startState s0))))).symptoms = [] := by
    rw [(safety_node_fields _).2.2.2.1]
    exact h1
  refine List.chain'_cons.mpr ⟨growsTo_startState s0, ?_⟩
  refine List.chain'_cons.mpr ⟨growsTo_scribe _, ?_⟩
  refine List.chain'_cons.mpr ⟨growsTo_planner rag _ e2, ?_⟩
  refine List.chain'_cons.mpr ⟨growsTo_rx _, ?_⟩
  refine List.chain'_cons.mpr ⟨growsTo_safety _, ?_⟩
  refine List.chain'_cons.mpr ⟨growsTo_symptom _ e5, ?_⟩
  refine List.chain'_cons.mpr ⟨growsTo_reviewBranch _, ?_⟩
  exact List.chain'_cons.mpr ⟨growsTo_persistStep emr _, List.chain'_singleton _⟩

/-- Witness for C3 (amended) at a concrete fresh run. -/
theorem claim_C3_amended_witness :
    List.Chain' growsTo (stageChain (some []) (.ok "E1")
      (triggerState "P001" "fever")) :=
  (claim_C3_amended (some []) (.ok "E1")
    (triggerState "P001" "fever") rfl rfl).1

/-- C8: enroll-verify round trip: for an image that decodes and contains a
detectable face, enrolling a patient with it and then verifying the same
patient with the exact same bytes yields status "ok", distance 0 and a
match (with the default threshold 0.25), because the two normalized
templates are identical and the mean squared difference of a template
with itself is 0. -/
theorem claim_C8 {Image Gray : Type} (env : FaceEnv Image Gray) (db : FaceDB)
    (patient_id : String) (image_bytes : List Nat) (img : Image)
    (t : Template) (h1 : env.decode image_bytes = some img)
    (h2 : extract_face_gray env img = some t) :
    enroll_from_image_bytes env db patient_id image_bytes =
      .ok (t, saveTemplate db (faceFileName patient_id) t) ∧
    verify_from_image_bytes env (saveTemplate db (faceFileName patient_id) t)
      patient_id image_bytes (1/4) = ⟨"ok", true, some 0, 1/4⟩ := by
  constructor
  · simp only [enroll_from_image_bytes, h1, h2]
  · simp only [verify_from_image_bytes, saveTemplate, if_pos, h1, h2, mseQ_self]
    norm_num

/-- Concrete OpenCV collaborator used to witness the biometric claims:
every byte string decodes, one face box is detected, and the normalized
template is a fixed two-pixel grid. -/
def envDemo : FaceEnv Nat Nat :=
  ⟨fun _ => some 0, fun g => g, fun _ => [(0, 0, 60, 60)], fun _ _ => [1/2, 1/2]⟩

/-- Empty template store. -/
def dbEmpty : FaceDB := fun _ => none

/-- Witness for C8 at a concrete enrollment and verification. -/
theorem claim_C8_witness :
    enroll_from_image_bytes envDemo dbEmpty "P001" [] =
      .ok ([1/2, 1/2], saveTemplate dbEmpty (faceFileName "P001") [1/2, 1/2]) ∧
    verify_from_image_bytes envDemo
      (saveTemplate dbEmpty (faceFileName "P001") [1/2, 1/2]) "P001" [] (1/4) =
      ⟨"ok", true, some 0, 1/4⟩ :=
  claim_C8 envDemo dbEmpty "P001" [] 0 [1/2, 1/2] rfl rfl

/-- Concrete OpenCV collaborator for the template-collision scenario:
every byte string decodes and normalizes to the one-pixel template
`[0]`. -/
def envFlip : FaceEnv Nat Nat :=
  ⟨fun _ => some 0, fun g => g, fun _ => [(0, 0, 60, 60)], fun _ _ => [0]⟩

/-- Template store holding, for the patient id "a_b", a stored template
`[1]` that is far from what `envFlip` extracts. -/
def dbFlip : FaceDB := fun k => if k = "a_b.npy" then some [1] else none

/-- C10: per-patient template isolation under enrollment: enrollment for
patient A overwrites the reference template consulted by verification for
patient B exactly when their sanitized template file names coincide;
since sanitization replaces both slash characters with an underscore, the
distinct ids "a/b", "a\\b" and "a_b" share one template slot — enrolling
"a/b" flips the verification outcome for "a_b" — while ids with distinct
sanitized names see an unchanged verification result. -/
theorem claim_C10 {Image Gray : Type} (env : FaceEnv Image Gray) (db : FaceDB)
    (A B : String) (image_bytes : List Nat) (img : Image) (t : Template)
    (h1 : env.decode image_bytes = some img)
    (h2 : extract_face_gray env img = some t) :
    (faceFileName "a/b" = faceFileName "a_b" ∧
     faceFileName "a\\b" = faceFileName "a_b") ∧
    enroll_from_image_bytes env db A image_bytes =
      .ok (t, saveTemplate db (faceFileName A) t) ∧
    (saveTemplate db (faceFileName A) t) (faceFileName B) =
      (if faceFileName B = faceFileName A then some t
       else db (faceFileName B)) ∧
    (faceFileName B ≠ faceFileName A →
      ∀ (bytes2 : List Nat) (th : ℚ),
        verify_from_image_bytes env (saveTemplate db (faceFileName A) t)
          B bytes2 th = verify_from_image_bytes env db B bytes2 th) ∧
    ((verify_from_image_bytes envFlip dbFlip "a_b" [] (1/4)).matched = false ∧
     enroll_from_image_bytes envFlip dbFlip "a/b" [] =
       .ok ([0], saveTemplate dbFlip (faceFileName "a/b") [0]) ∧
     (verify_from_image_bytes envFlip
       (saveTemplate dbFlip (faceFileName "a/b") [0]) "a_b" [] (1/4)).matched =
       true) := by
  have ha : (verify_from_image_bytes envFlip dbFlip "a_b" [] (1/4)).matched =
      false := by
    show decide (mseQ [1] [0] ≤ 1/4) = false
    rw [decide_eq_false_iff_not]
    have hm : mseQ [1] [0] = 1 := by
      simp [mseQ]
    rw [hm]
    norm_num
  have hc : (verify_from_image_bytes envFlip
      (saveTemplate dbFlip (faceFileName "a/b") [0]) "a_b" [] (1/4)).matched =
      true := by
    show decide (mseQ [0] [0] ≤ 1/4) = true
    rw [mseQ_self]
    norm_num
  refine ⟨⟨by decide, by decide⟩, ?_, rfl, ?_, ha, rfl, hc⟩
  · simp only [enroll_from_image_bytes, h1, h2]
  · intro hne bytes2 th
    simp only [verify_from_image_bytes, saveTemplate, if_neg hne]

/-- Witness for C10: enrolling "a/b" leaves verification for a patient id
with a distinct sanitized name unchanged. -/
theorem claim_C10_witness :
    verify_from_image_bytes envFlip
      (saveTemplate dbFlip (faceFileName "a/b") [0]) "other" [] (1/4) =
      verify_from_image_bytes envFlip dbFlip "other" [] (1/4) :=
  (claim_C10 envFlip dbFlip "a/b" "other" [] 0 [0] rfl rfl).2.2.2.1
    (by decide) [] (1/4)

end ClinicalCopilot
